import Mathlib

/-!
Verification of the appointment lifecycle and role-authorization rules of the
health-connect-ui-system repository.

The repository is a React front end; the lifecycle rules live in
`src/src/components/appointments/AppointmentDetailDialog.tsx`
(`getAvailableStatuses`, `canUpdateStatus`, the cancel/reschedule handlers),
`src/src/services/api.ts` (the REST wrappers) and
`src/src/contexts/AuthContext.tsx` (`mapBackendRoleToFrontendRole`).
The spec additionally designs a consolidated, pure `AppointmentLifecycle`
module (`listAvailableTransitions`, `applyStatusChange`, `cancel`,
`reschedule`) that has no single implementation in the source tree; those
operations are modelled here from the spec's words and marked as such.
-/

namespace HealthConnect

/-- The 7-value appointment status union type of
`AppointmentDetailDialog.tsx` (the `status` field of the `Appointment`
interface), which is also the spec's `AppointmentStatus` enum. -/
inductive AppointmentStatus where
  | SCHEDULED
  | CONFIRMED
  | IN_PROGRESS
  | COMPLETED
  | CANCELLED
  | RESCHEDULED
  | NO_SHOW
  deriving DecidableEq, Repr, Fintype

/-- The actor roles: the three front-end roles compared against
`user?.role` in the dialog, plus `PATIENT` as the spec's non-privileged
default (any role string other than the three falls through every branch
of the dialog's role checks, exactly as `PATIENT` does here). -/
inductive ActorRole where
  | ADMIN
  | DOCTOR
  | HELPDESK
  | PATIENT
  deriving DecidableEq, Repr, Fintype

/-- The appointment record the lifecycle operates on: the spec's field
names (`scheduledAt`, `cancellationReason`, ...); in the source interface
`scheduledAt` is the ISO string `appointmentDateTime`, modelled here as an
integer timestamp. -/
structure Appointment where
  id : Nat
  patientRef : Nat
  doctorRef : Nat
  departmentRef : Nat
  scheduledAt : Int
  status : AppointmentStatus
  notes : Option String
  cancellationReason : Option String
  createdAt : Int
  updatedAt : Int
  deriving DecidableEq, Repr

/-- The `allStatuses` list of `getAvailableStatuses` in
`AppointmentDetailDialog.tsx`. -/
def allStatuses : List AppointmentStatus :=
  [.SCHEDULED, .CONFIRMED, .IN_PROGRESS, .COMPLETED, .CANCELLED, .RESCHEDULED, .NO_SHOW]

/-- `getAvailableStatuses` from
`src/src/components/appointments/AppointmentDetailDialog.tsx` (lines
100-123).  The component closure reads `appointment.status` and
`user?.role`; both are passed explicitly here.  A role other than the
three recognized ones falls through every branch and yields
`[appointment.status]`, as in the source. -/
def getAvailableStatuses (current : AppointmentStatus) (role : ActorRole) :
    List AppointmentStatus :=
  if role = ActorRole.ADMIN then
    allStatuses
  else if role = ActorRole.DOCTOR then
    match current with
    | .SCHEDULED => [.SCHEDULED, .CONFIRMED, .IN_PROGRESS, .NO_SHOW]
    | .CONFIRMED => [.CONFIRMED, .IN_PROGRESS, .NO_SHOW]
    | .IN_PROGRESS => [.IN_PROGRESS, .COMPLETED]
    | _ => [current]
  else if role = ActorRole.HELPDESK then
    match current with
    | .SCHEDULED => [.SCHEDULED, .CONFIRMED]
    | _ => [current]
  else
    [current]

/-- `canUpdateStatus` from `AppointmentDetailDialog.tsx` (lines 89-98). -/
def canUpdateStatus (current : AppointmentStatus) (role : ActorRole) : Bool :=
  if role = ActorRole.ADMIN then true
  else if role = ActorRole.DOCTOR then
    current ∈ [AppointmentStatus.SCHEDULED, .CONFIRMED, .IN_PROGRESS]
  else if role = ActorRole.HELPDESK then
    current ∈ [AppointmentStatus.SCHEDULED]
  else false

/-- The front-end role enum of `src/src/contexts/AuthContext.tsx`. -/
inductive FrontendRole where
  | ADMIN
  | DOCTOR
  | HELPDESK
  deriving DecidableEq, Repr, Fintype

/-- `mapBackendRoleToFrontendRole` from `src/src/contexts/AuthContext.tsx`
(lines 22-34).  The returned Bool records whether the `console.warn`
default branch was taken (the source's only observable side effect). -/
def mapBackendRoleToFrontendRole (backendRole : String) : FrontendRole × Bool :=
  if backendRole = "ROLE_ADMIN" then (FrontendRole.ADMIN, false)
  else if backendRole = "ROLE_DOCTOR" then (FrontendRole.DOCTOR, false)
  else if backendRole = "ROLE_HELPDESK" then (FrontendRole.HELPDESK, false)
  else (FrontendRole.HELPDESK, true)

/-- Modelled from the spec: the role-independent transition table of
section 4.1 (the consolidated `AppointmentLifecycle` module has no
implementation under src/; `RESCHEDULED` is treated as `SCHEDULED` for
subsequent transition purposes). -/
def transitionTable : AppointmentStatus → List AppointmentStatus
  | .SCHEDULED => [.CONFIRMED, .IN_PROGRESS, .CANCELLED, .NO_SHOW, .RESCHEDULED]
  | .CONFIRMED => [.IN_PROGRESS, .CANCELLED, .NO_SHOW, .RESCHEDULED]
  | .IN_PROGRESS => [.COMPLETED]
  | .RESCHEDULED => [.CONFIRMED, .IN_PROGRESS, .CANCELLED, .NO_SHOW, .RESCHEDULED]
  | _ => []

/-- Modelled from the spec: the role authorization matrix of section 4.1
(destination statuses each role may apply from the given current status;
ADMIN may apply any table-permitted destination; `RESCHEDULED` is treated
as `SCHEDULED`).  This is the matrix row itself, before intersecting with
the transition table. -/
def roleRights (role : ActorRole) (current : AppointmentStatus) :
    List AppointmentStatus :=
  let c := if current = AppointmentStatus.RESCHEDULED then AppointmentStatus.SCHEDULED
           else current
  match role, c with
  | .ADMIN, _ => transitionTable current
  | .DOCTOR, .SCHEDULED => [.CONFIRMED, .IN_PROGRESS, .NO_SHOW]
  | .DOCTOR, .CONFIRMED => [.IN_PROGRESS, .NO_SHOW]
  | .DOCTOR, .IN_PROGRESS => [.COMPLETED]
  | .HELPDESK, .SCHEDULED => [.CONFIRMED]
  | _, _ => []

/-- Modelled from the spec: `listAvailableTransitions(currentStatus, role)`
of the missing `AppointmentLifecycle` module — the current status together
with the intersection of the transition-table-permitted and the
role-permitted destinations (section 4.1's offering rule plus the section
8 scenarios, which always include the current status in the returned
set). -/
def listAvailableTransitions (current : AppointmentStatus) (role : ActorRole) :
    List AppointmentStatus :=
  current :: (transitionTable current).filter (fun s => s ∈ roleRights role current)

/-- The spec's `LifecycleError` taxonomy (section 7). -/
inductive LifecycleError where
  | InvalidTransition
  | Unauthorized
  | MissingReason
  | PastDate
  deriving DecidableEq, Repr

/-- Modelled from the spec: `applyStatusChange(appointment, requestedStatus,
role)` of the missing `AppointmentLifecycle` module.  Requesting the
current status fails with `InvalidTransition` (section 8's idempotence
property); a terminal current status admits no transition for any role
(section 8's terminal scenario); a role with no rights from the current
status fails `Unauthorized` (the defensive double check); otherwise the
destination must be an available transition.  `now` stands for the
clock used to refresh `updatedAt`. -/
def applyStatusChange (a : Appointment) (requested : AppointmentStatus)
    (role : ActorRole) (now : Int) : Except LifecycleError Appointment :=
  if requested = a.status then
    .error .InvalidTransition
  else if transitionTable a.status = [] then
    .error .InvalidTransition
  else if roleRights role a.status = [] then
    .error .Unauthorized
  else if requested ∈ listAvailableTransitions a.status role then
    .ok { a with status := requested, updatedAt := now }
  else
    .error .InvalidTransition

/-- Embeds the truthiness test `!cancelReason.trim()` of
`handleCancelAppointment` in `AppointmentDetailDialog.tsx` (line 156): the
trimmed reason is empty exactly when every character of the reason is
whitespace. -/
def isBlank (reason : String) : Bool :=
  reason.data.all (fun c => c.isWhitespace)

/-- Modelled from the spec: `cancel(appointment, reason, role)` of the
missing `AppointmentLifecycle` module.  The reason validation is the one
the source's `handleCancelAppointment` performs (`!cancelReason.trim()`,
which also rejects whitespace-only reasons); the success effect — apply
the `CANCELLED` status change and set `cancellationReason` — follows the
spec, the actual field updates being performed by the remote backend. -/
def cancel (a : Appointment) (reason : String) (role : ActorRole) (now : Int) :
    Except LifecycleError Appointment :=
  if isBlank reason then
    .error .MissingReason
  else
    match applyStatusChange a .CANCELLED role now with
    | .ok b => .ok { b with cancellationReason := some reason }
    | .error e => .error e

/-- Modelled from the spec: `reschedule(appointment, newScheduledAt, role)`
of the missing `AppointmentLifecycle` module (the source's
`handleRescheduleAppointment` performs no date validation itself — only
the calendar widget disables past dates — and the spec directs the module
to enforce it regardless of caller).  Fails `PastDate` unless the new
timestamp is strictly in the future; only offered from
`SCHEDULED`/`CONFIRMED` and to the three privileged roles; on success
returns to `SCHEDULED` with the stale cancellation reason cleared. -/
def reschedule (a : Appointment) (newScheduledAt : Int) (role : ActorRole)
    (now : Int) : Except LifecycleError Appointment :=
  if newScheduledAt ≤ now then
    .error .PastDate
  else if a.status ∉ [AppointmentStatus.SCHEDULED, .CONFIRMED] then
    .error .InvalidTransition
  else if role ∈ [ActorRole.ADMIN, .DOCTOR, .HELPDESK] then
    .ok { a with scheduledAt := newScheduledAt, status := .SCHEDULED,
                 cancellationReason := none, updatedAt := now }
  else
    .error .Unauthorized

/-- The spec's section 3 invariant: `cancellationReason` is populated if
and only if the status is `CANCELLED`. -/
def cancellationInvariant (a : Appointment) : Prop :=
  a.cancellationReason ≠ none ↔ a.status = AppointmentStatus.CANCELLED

instance (a : Appointment) : Decidable (cancellationInvariant a) := by
  unfold cancellationInvariant; infer_instance

/-- A concrete appointment used by witnesses: freshly scheduled, no
cancellation reason. -/
def sampleAppointment : Appointment :=
  { id := 1, patientRef := 10, doctorRef := 20, departmentRef := 30,
    scheduledAt := 1000, status := .SCHEDULED, notes := none,
    cancellationReason := none, createdAt := 0, updatedAt := 0 }

/-- The result of rescheduling `sampleAppointment` to time 2000 at time
1500. -/
def sampleRescheduled : Appointment :=
  { sampleAppointment with
    scheduledAt := 2000,
    status := .SCHEDULED,
    cancellationReason := none,
    updatedAt := 1500 }

/-- The result of rescheduling `sampleAppointment` to time 2000 at time
1000. -/
def sampleRescheduledDoc : Appointment :=
  { sampleAppointment with
    scheduledAt := 2000,
    status := .SCHEDULED,
    cancellationReason := none,
    updatedAt := 1000 }

/-- Characterization of a successful `applyStatusChange`: exactly the
failure-free path through the operation's checks, with the returned
appointment carrying the requested status and refreshed `updatedAt`. -/
theorem applyStatusChange_ok_iff (a : Appointment) (req : AppointmentStatus)
    (role : ActorRole) (now : Int) (b : Appointment) :
    applyStatusChange a req role now = Except.ok b ↔
      req ≠ a.status ∧ transitionTable a.status ≠ [] ∧
      roleRights role a.status ≠ [] ∧
      req ∈ listAvailableTransitions a.status role ∧
      b = { a with status := req, updatedAt := now } := by
  unfold applyStatusChange
  split_ifs with h1 h2 h3 h4 <;> simp_all [eq_comm]

/-- C1 counterexample: the dialog's `getAvailableStatuses` does not return
exactly `{COMPLETED}` for the terminal status `COMPLETED` when the role is
`ADMIN` — it offers every status, `CANCELLED` included. -/
theorem admin_terminal_counterexample :
    AppointmentStatus.CANCELLED ∈ getAvailableStatuses .COMPLETED .ADMIN ∧
    getAvailableStatuses .COMPLETED .ADMIN ≠ [.COMPLETED] := by
  decide

/-- C1 (amended): for every terminal status, `getAvailableStatuses`
returns exactly the singleton current status for every role other than
`ADMIN`; for `ADMIN` it returns the full 7-status list, so terminal
statuses are not immutable for the admin role. -/
theorem terminal_statuses_nonadmin :
    ∀ t : AppointmentStatus,
      t ∈ [AppointmentStatus.COMPLETED, .CANCELLED, .NO_SHOW] →
      (∀ r : ActorRole, r ≠ ActorRole.ADMIN → getAvailableStatuses t r = [t]) ∧
      getAvailableStatuses t ActorRole.ADMIN = allStatuses := by
  decide

/-- C1 witness: the amended theorem instantiated at the terminal status
`COMPLETED` and the non-admin role `DOCTOR`. -/
theorem terminal_statuses_nonadmin_witness :
    AppointmentStatus.COMPLETED ∈ [AppointmentStatus.COMPLETED, .CANCELLED, .NO_SHOW] ∧
    ActorRole.DOCTOR ≠ ActorRole.ADMIN ∧
    getAvailableStatuses .COMPLETED .DOCTOR = [.COMPLETED] :=
  ⟨by decide, by decide,
    (terminal_statuses_nonadmin .COMPLETED (by decide)).1 .DOCTOR (by decide)⟩

/-- C2 counterexample: for `ADMIN`, `getAvailableStatuses` offers
`SCHEDULED` from `IN_PROGRESS`, a destination the section 4.1 transition
table does not permit and which is not the current status. -/
theorem admin_illegal_destination_counterexample :
    AppointmentStatus.SCHEDULED ∈ getAvailableStatuses .IN_PROGRESS .ADMIN ∧
    AppointmentStatus.SCHEDULED ∉ transitionTable .IN_PROGRESS ∧
    AppointmentStatus.SCHEDULED ≠ .IN_PROGRESS := by
  decide

/-- C2 (amended): for every (status, role) pair the returned list is a
subset of the 7-status enum, and for every role other than `ADMIN` every
member is either the current status or a table-permitted destination; for
`ADMIN` the full enum is returned regardless of reachability. -/
theorem available_statuses_table_respecting_nonadmin :
    ∀ (s : AppointmentStatus) (r : ActorRole),
      (∀ x ∈ getAvailableStatuses s r, x ∈ allStatuses) ∧
      (r ≠ ActorRole.ADMIN →
        ∀ x ∈ getAvailableStatuses s r, x = s ∨ x ∈ transitionTable s) := by
  decide

/-- C2 witness: the amended theorem instantiated for `DOCTOR` at
`SCHEDULED` and the offered destination `CONFIRMED`. -/
theorem available_statuses_table_respecting_nonadmin_witness :
    ActorRole.DOCTOR ≠ ActorRole.ADMIN ∧
    AppointmentStatus.CONFIRMED ∈ getAvailableStatuses .SCHEDULED .DOCTOR ∧
    (AppointmentStatus.CONFIRMED = AppointmentStatus.SCHEDULED ∨
      AppointmentStatus.CONFIRMED ∈ transitionTable .SCHEDULED) :=
  ⟨by decide, by decide,
    (available_statuses_table_respecting_nonadmin .SCHEDULED .DOCTOR).2
      (by decide) .CONFIRMED (by decide)⟩

/-- C3: `getAvailableStatuses(SCHEDULED, HELPDESK)` is exactly the
two-element list `[SCHEDULED, CONFIRMED]`, and from no status does
`HELPDESK` get an `IN_PROGRESS`, terminal, or cancellation destination
other than the current status itself. -/
theorem helpdesk_scheduled_transitions :
    getAvailableStatuses .SCHEDULED .HELPDESK = [.SCHEDULED, .CONFIRMED] ∧
    ∀ (s x : AppointmentStatus), x ∈ getAvailableStatuses s .HELPDESK → x ≠ s →
      x ∉ [AppointmentStatus.IN_PROGRESS, .COMPLETED, .CANCELLED, .NO_SHOW] := by
  decide

/-- C3 witness: the second part instantiated at the one real `HELPDESK`
destination, `CONFIRMED` from `SCHEDULED`. -/
theorem helpdesk_scheduled_transitions_witness :
    AppointmentStatus.CONFIRMED ∈ getAvailableStatuses .SCHEDULED .HELPDESK ∧
    AppointmentStatus.CONFIRMED ≠ AppointmentStatus.SCHEDULED ∧
    AppointmentStatus.CONFIRMED ∉
      [AppointmentStatus.IN_PROGRESS, .COMPLETED, .CANCELLED, .NO_SHOW] :=
  ⟨by decide, by decide,
    helpdesk_scheduled_transitions.2 .SCHEDULED .CONFIRMED (by decide) (by decide)⟩

/-- C4: `reschedule` fails with `PastDate` for every appointment, role and
clock whenever the new timestamp is not strictly in the future. -/
theorem reschedule_past_date_fails :
    ∀ (a : Appointment) (t : Int) (role : ActorRole) (now : Int),
      t ≤ now → reschedule a t role now = Except.error LifecycleError.PastDate := by
  intro a t role now h
  unfold reschedule
  rw [if_pos h]

/-- C4 witness: rescheduling to a timestamp one hour (3600 seconds) in the
past fails with `PastDate` even for `ADMIN`. -/
theorem reschedule_past_date_fails_witness :
    (0 : Int) ≤ 3600 ∧
    reschedule sampleAppointment 0 ActorRole.ADMIN 3600 =
      Except.error LifecycleError.PastDate :=
  ⟨by decide, reschedule_past_date_fails sampleAppointment 0 ActorRole.ADMIN 3600 (by decide)⟩

/-- C5 counterexample: a whitespace-only reason is non-empty and the
`CANCELLED` transition is legal for `ADMIN` from `SCHEDULED`, yet `cancel`
fails with `MissingReason`, because the source's handler tests
`!cancelReason.trim()`. -/
theorem cancel_whitespace_reason_counterexample :
    (" " : String) ≠ "" ∧
    applyStatusChange sampleAppointment .CANCELLED .ADMIN 1 =
      Except.ok { sampleAppointment with status := .CANCELLED, updatedAt := 1 } ∧
    cancel sampleAppointment " " ActorRole.ADMIN 1 =
      Except.error LifecycleError.MissingReason := by
  refine ⟨by decide, by rfl, by rfl⟩

/-- C5 (amended): `cancel` fails with `MissingReason` exactly when the
reason is empty or consists only of whitespace, for every appointment and
role; when the reason has a non-whitespace character and the `CANCELLED`
transition succeeds, the result carries status `CANCELLED` and the given
reason. -/
theorem cancel_reason_validation :
    ∀ (a : Appointment) (reason : String) (role : ActorRole) (now : Int),
      (isBlank reason = true →
        cancel a reason role now = Except.error LifecycleError.MissingReason) ∧
      (∀ b : Appointment, isBlank reason = false →
        applyStatusChange a .CANCELLED role now = Except.ok b →
        cancel a reason role now =
            Except.ok { b with cancellationReason := some reason } ∧
          b.status = AppointmentStatus.CANCELLED) := by
  intro a reason role now
  constructor
  · intro hb
    unfold cancel
    rw [if_pos hb]
  · intro b hb h
    constructor
    · simp [cancel, hb, h]
    · rw [applyStatusChange_ok_iff] at h
      obtain ⟨_, _, _, _, rfl⟩ := h
      rfl

/-- C5 witness: cancelling the sample appointment with the reason "sick"
as `ADMIN` succeeds, produces status `CANCELLED` and stores the reason. -/
theorem cancel_reason_validation_witness :
    isBlank "sick" = false ∧
    cancel sampleAppointment "sick" ActorRole.ADMIN 1 =
      Except.ok { sampleAppointment with
                  status := .CANCELLED,
                  updatedAt := 1,
                  cancellationReason := some "sick" } ∧
    Appointment.status { sampleAppointment with
                         status := AppointmentStatus.CANCELLED,
                         updatedAt := 1 } = AppointmentStatus.CANCELLED := by
  have h := (cancel_reason_validation sampleAppointment "sick" ActorRole.ADMIN 1).2
    { sampleAppointment with status := AppointmentStatus.CANCELLED, updatedAt := 1 }
    (by decide) (by rfl)
  exact ⟨by decide, h.1, h.2⟩

/-- C6 counterexample: a direct successful `applyStatusChange` into
`CANCELLED` leaves `cancellationReason` unset, breaking the
populated-iff-`CANCELLED` invariant that held before the call. -/
theorem apply_status_change_cancelled_invariant_counterexample :
    cancellationInvariant sampleAppointment ∧
    applyStatusChange sampleAppointment .CANCELLED .ADMIN 7 =
      Except.ok { sampleAppointment with status := .CANCELLED, updatedAt := 7 } ∧
    ¬ cancellationInvariant { sampleAppointment with status := .CANCELLED, updatedAt := 7 } := by
  refine ⟨by decide, by rfl, by decide⟩

/-- C6 (amended): `cancel` and `reschedule` always re-establish the
cancellation invariant, and `applyStatusChange` preserves it for every
destination other than `CANCELLED`; a direct `applyStatusChange` into
`CANCELLED` is the one successful operation that violates it. -/
theorem lifecycle_preserves_cancellation_invariant :
    (∀ (a : Appointment) (req : AppointmentStatus) (role : ActorRole) (now : Int)
        (b : Appointment),
        req ≠ AppointmentStatus.CANCELLED → cancellationInvariant a →
        applyStatusChange a req role now = Except.ok b → cancellationInvariant b) ∧
    (∀ (a : Appointment) (reason : String) (role : ActorRole) (now : Int)
        (b : Appointment),
        cancel a reason role now = Except.ok b → cancellationInvariant b) ∧
    (∀ (a : Appointment) (t : Int) (role : ActorRole) (now : Int) (b : Appointment),
        reschedule a t role now = Except.ok b → cancellationInvariant b) := by
  refine ⟨?_, ?_, ?_⟩
  · intro a req role now b hreq hinv h
    rw [applyStatusChange_ok_iff] at h
    obtain ⟨h1, h2, h3, h4, rfl⟩ := h
    unfold cancellationInvariant at hinv ⊢
    have hs : a.status ≠ AppointmentStatus.CANCELLED := by
      intro hc
      rw [hc] at h2
      exact h2 rfl
    have hr : a.cancellationReason = none := by
      by_contra hne
      exact hs (hinv.mp hne)
    simp [hr, hreq]
  · intro a reason role now b h
    unfold cancel at h
    split_ifs at h with hb
    rcases hc : applyStatusChange a AppointmentStatus.CANCELLED role now with e | b2
    · rw [hc] at h
      exact Except.noConfusion h
    · rw [hc] at h
      rw [applyStatusChange_ok_iff] at hc
      obtain ⟨_, _, _, _, rfl⟩ := hc
      injection h with h'
      subst h'
      unfold cancellationInvariant
      simp
  · intro a t role now b h
    unfold reschedule at h
    split_ifs at h with h1 h2 h3
    injection h with h'
    subst h'
    unfold cancellationInvariant
    simp

/-- C6 witness: the reschedule part applied to the sample appointment. -/
theorem lifecycle_preserves_cancellation_invariant_witness :
    reschedule sampleAppointment 2000 ActorRole.ADMIN 1500 =
      Except.ok sampleRescheduled ∧
    cancellationInvariant sampleRescheduled :=
  ⟨rfl, lifecycle_preserves_cancellation_invariant.2.2 sampleAppointment 2000
    ActorRole.ADMIN 1500 sampleRescheduled rfl⟩

/-- C7: every successful `reschedule` yields an appointment whose
`scheduledAt` is the requested timestamp, whose status is `SCHEDULED`
(never `RESCHEDULED`), and whose `cancellationReason` is cleared. -/
theorem reschedule_success_postconditions :
    ∀ (a : Appointment) (t : Int) (role : ActorRole) (now : Int) (b : Appointment),
      reschedule a t role now = Except.ok b →
      b.scheduledAt = t ∧ b.status = AppointmentStatus.SCHEDULED ∧
        b.cancellationReason = none := by
  intro a t role now b h
  unfold reschedule at h
  split_ifs at h with h1 h2 h3
  injection h with h'
  subst h'
  exact ⟨rfl, rfl, rfl⟩

/-- C7 witness: a doctor rescheduling the sample appointment to time 2000
at time 1000. -/
theorem reschedule_success_postconditions_witness :
    reschedule sampleAppointment 2000 ActorRole.DOCTOR 1000 =
      Except.ok sampleRescheduledDoc ∧
    (sampleRescheduledDoc.scheduledAt = 2000 ∧
      sampleRescheduledDoc.status = AppointmentStatus.SCHEDULED ∧
      sampleRescheduledDoc.cancellationReason = none) :=
  ⟨rfl, reschedule_success_postconditions sampleAppointment 2000 ActorRole.DOCTOR
    1000 sampleRescheduledDoc rfl⟩

/-- C8: requesting the status an appointment already has fails with
`InvalidTransition` for every appointment, role and clock; a no-op
transition is never accepted. -/
theorem apply_status_change_noop_rejected :
    ∀ (a : Appointment) (role : ActorRole) (now : Int),
      applyStatusChange a a.status role now =
        Except.error LifecycleError.InvalidTransition := by
  intro a role now
  simp [applyStatusChange]

/-- C9: the backend-role mapping is total — it sends the three recognized
role strings to their namesakes one-to-one without warning, and every
other string (case-sensitively, so also lowercase variants) to `HELPDESK`
with a warning. -/
theorem map_backend_role_total :
    mapBackendRoleToFrontendRole "ROLE_ADMIN" = (FrontendRole.ADMIN, false) ∧
    mapBackendRoleToFrontendRole "ROLE_DOCTOR" = (FrontendRole.DOCTOR, false) ∧
    mapBackendRoleToFrontendRole "ROLE_HELPDESK" = (FrontendRole.HELPDESK, false) ∧
    ∀ s : String, s ≠ "ROLE_ADMIN" → s ≠ "ROLE_DOCTOR" → s ≠ "ROLE_HELPDESK" →
      mapBackendRoleToFrontendRole s = (FrontendRole.HELPDESK, true) := by
  refine ⟨by rfl, by rfl, by rfl, ?_⟩
  intro s h1 h2 h3
  unfold mapBackendRoleToFrontendRole
  rw [if_neg h1, if_neg h2, if_neg h3]

/-- C9 witness: the unrecognized, lowercase string "role_admin" maps to
`HELPDESK` with a warning. -/
theorem map_backend_role_total_witness :
    ("role_admin" : String) ≠ "ROLE_ADMIN" ∧
    mapBackendRoleToFrontendRole "role_admin" = (FrontendRole.HELPDESK, true) :=
  ⟨by decide,
    map_backend_role_total.2.2.2 "role_admin" (by decide) (by decide) (by decide)⟩

/-- C10: for every (status, role) pair the list returned by
`getAvailableStatuses` contains the current status and is non-empty. -/
theorem available_statuses_contain_current :
    ∀ (s : AppointmentStatus) (r : ActorRole),
      s ∈ getAvailableStatuses s r ∧ getAvailableStatuses s r ≠ [] := by
  decide

end HealthConnect
